import Mathlib

/-!
Verification of the metafield synchronization pipeline of a Shopify app.

The repository has two webhook handlers:
* `src/app/routes/webhooks.products.update.jsx` — on `products/update`, reads
  the product's `custom` metafields, validates `material_costs` and
  `hours_worked`, loads the shop's stored defaults, runs the pricing
  calculation and writes the four derived metafields back.
* `src/unnamed/part_000` (a `products/create` handler plus the settings page) —
  on `products/create`, loads the shop's stored defaults and writes every
  truthy default verbatim onto the new product; it runs no calculation.

JavaScript numbers are modelled by `JNum`, an exact-rational carrier extended
with `NaN` and the two infinities, with the IEEE-style propagation rules for
the operations the handlers actually use (`+`, `-`, `*`, `/`, `<`).  The
decimal literals of the source (`0.095`, `0.20`, `1.05`, `1.2`, `2`) are taken
at their exact decimal value.
-/

/-- A JavaScript number: a finite (exact rational) value, `NaN`, or a signed
infinity. -/
inductive JNum where
  | fin (q : ℚ)
  | posInf
  | negInf
  | nan
deriving DecidableEq, Repr

namespace JNum

/-- JavaScript addition. -/
def add : JNum → JNum → JNum
  | nan, _ => nan
  | _, nan => nan
  | fin a, fin b => fin (a + b)
  | posInf, negInf => nan
  | negInf, posInf => nan
  | posInf, _ => posInf
  | _, posInf => posInf
  | negInf, _ => negInf
  | _, negInf => negInf

/-- JavaScript subtraction. -/
def sub : JNum → JNum → JNum
  | nan, _ => nan
  | _, nan => nan
  | fin a, fin b => fin (a - b)
  | posInf, posInf => nan
  | negInf, negInf => nan
  | posInf, _ => posInf
  | _, negInf => posInf
  | negInf, _ => negInf
  | _, posInf => negInf

/-- JavaScript multiplication (`∞ * 0 = NaN`, signs propagate). -/
def mul : JNum → JNum → JNum
  | nan, _ => nan
  | _, nan => nan
  | fin a, fin b => fin (a * b)
  | fin a, posInf => if 0 < a then posInf else if a < 0 then negInf else nan
  | posInf, fin a => if 0 < a then posInf else if a < 0 then negInf else nan
  | fin a, negInf => if 0 < a then negInf else if a < 0 then posInf else nan
  | negInf, fin a => if 0 < a then negInf else if a < 0 then posInf else nan
  | posInf, posInf => posInf
  | negInf, negInf => posInf
  | posInf, negInf => negInf
  | negInf, posInf => negInf

/-- JavaScript division (`x / 0` is a signed infinity for `x ≠ 0` and `NaN`
for `x = 0`; `x / ±∞ = 0` for finite `x`). -/
def div : JNum → JNum → JNum
  | nan, _ => nan
  | _, nan => nan
  | fin a, fin b =>
      if b ≠ 0 then fin (a / b)
      else if 0 < a then posInf
      else if a < 0 then negInf
      else nan
  | fin _, posInf => fin 0
  | fin _, negInf => fin 0
  | posInf, fin a => if 0 ≤ a then posInf else negInf
  | negInf, fin a => if 0 ≤ a then negInf else posInf
  | _, _ => nan

/-- JavaScript `<` (any comparison with `NaN` is false). -/
def ltB : JNum → JNum → Bool
  | nan, _ => false
  | _, nan => false
  | fin a, fin b => a < b
  | fin _, posInf => true
  | negInf, fin _ => true
  | negInf, posInf => true
  | posInf, _ => false
  | _, negInf => false

instance : Add JNum := ⟨add⟩
instance : Sub JNum := ⟨sub⟩
instance : Mul JNum := ⟨mul⟩
instance : Div JNum := ⟨div⟩

end JNum

/-! ## Data model -/

/-- One edge of the product-metafields query result: a `custom`-namespace
metafield of the product (`edge.node` in the source). -/
structure MetafieldEdge where
  ns : String
  key : String
  value : String
deriving DecidableEq, Repr

/-- The per-shop `metafieldDefaults` record.  Every column is optional
(`null`-able) in the Prisma model; a `none` field is an absent value. -/
structure MetafieldDefaults where
  etsyDiscount : Option String
  shipping : Option String
  vat : Option String
  normalMultiplier : Option String
  ooakMultiplier : Option String
  etsyMarkupProfit : Option String
  hourlyRate : Option String
  rarity : Option String
deriving DecidableEq, Repr

/-- One entry of a `metafieldsSet` mutation payload. -/
structure MetafieldWrite where
  ownerId : String
  ns : String
  key : String
  value : String
  type : String
deriving DecidableEq, Repr

/-- The four derived pricing values computed by the update handler. -/
structure Derived where
  totalCost : JNum
  finalEtsyPrice : JNum
  etsyFees : JNum
  marketPrice : JNum
deriving DecidableEq, Repr

/-- JavaScript truthiness of an optional string (`null` and `""` are falsy,
every other string is truthy). -/
def truthy : Option String → Bool
  | some s => s ≠ ""
  | none => false

/-- JavaScript `x || d` on an optional string (`rarityField?.node.value ||
"NORMAL"`). -/
def jsStringOr (o : Option String) (d : String) : String :=
  match o with
  | some s => if s = "" then d else s
  | none => d

/-- `gid://shopify/Product/${productId}`. -/
def productGid (productId : ℕ) : String :=
  "gid://shopify/Product/" ++ toString productId

/-! ## Pricing calculation (update handler, lines 96 and 101–125) -/

/-- The configuration values after the fallback step of the update handler
(lines 87–93): each is a parsed number, or the hard-coded fallback. -/
structure ResolvedDefaults where
  hourlyRate : JNum
  markup : JNum
  vat : JNum
  shipping : JNum
  discount : JNum
  normalMultiplier : JNum
  ooakMultiplier : JNum
deriving DecidableEq, Repr

/-- `defaults.f ? parseFloat(defaults.f) : fallback` — the stored string is
parsed when it is truthy, otherwise the fallback applies. -/
def resolveField (pf : String → JNum) (o : Option String) (fallback : JNum) : JNum :=
  match o with
  | some s => if s = "" then fallback else pf s
  | none => fallback

/-- Lines 87–93 of the update handler: parse each stored default, with
fallbacks `0, 0, 0, 0, 0, 1.2, 2`. -/
def resolveDefaults (pf : String → JNum) (d : MetafieldDefaults) : ResolvedDefaults where
  hourlyRate := resolveField pf d.hourlyRate (JNum.fin 0)
  markup := resolveField pf d.etsyMarkupProfit (JNum.fin 0)
  vat := resolveField pf d.vat (JNum.fin 0)
  shipping := resolveField pf d.shipping (JNum.fin 0)
  discount := resolveField pf d.etsyDiscount (JNum.fin 0)
  normalMultiplier := resolveField pf d.normalMultiplier (JNum.fin (6 / 5))
  ooakMultiplier := resolveField pf d.ooakMultiplier (JNum.fin 2)

/-- JavaScript `String.prototype.toUpperCase`, restricted to the ASCII range
(the only range the rarity labels use). -/
def jsToUpper (s : String) : String :=
  String.mk (s.data.map Char.toUpper)

/-- Line 96: `productRarity.toUpperCase() === "OOAK" ? ooakMultiplier :
normalMultiplier`. -/
def rarityMultiplierOf (productRarity : String) (c : ResolvedDefaults) : JNum :=
  if jsToUpper productRarity = "OOAK" then c.ooakMultiplier else c.normalMultiplier

/-- Lines 101–125 of the update handler: the pricing calculation, in source
order, over JavaScript numbers. -/
def computePricing (materialCosts hoursWorked : JNum) (productRarity : String)
    (c : ResolvedDefaults) : Derived :=
  let rarityMultiplier := rarityMultiplierOf productRarity c
  let labor := hoursWorked * c.hourlyRate
  let totalCost := materialCosts + labor
  let base := (materialCosts + labor) * (JNum.fin 1 + JNum.div c.markup (JNum.fin 100))
  let rarityAdjusted := base * rarityMultiplier
  let subtotal := rarityAdjusted + c.shipping
  let priceWithVat := subtotal * (JNum.fin 1 + JNum.div c.vat (JNum.fin 100))
  let etsyFeesAmount := priceWithVat * JNum.fin (19 / 200) + JNum.fin (1 / 5)
  let finalEtsyPrice0 := priceWithVat + etsyFeesAmount
  let finalEtsyPrice :=
    if JNum.ltB (JNum.fin 0) c.discount then
      JNum.div finalEtsyPrice0 (JNum.fin 1 - JNum.div c.discount (JNum.fin 100))
    else finalEtsyPrice0
  let marketBase := (materialCosts + labor) * JNum.fin (21 / 20)
  let marketPrice := marketBase * rarityMultiplier
  ⟨totalCost, finalEtsyPrice, etsyFeesAmount, marketPrice⟩

/-! ## Serialization boundary -/

/-- `Number.prototype.toFixed(2)`: render with two decimals (nearest, ties
up); `NaN` and the infinities render to their JavaScript names. -/
def toFixed2 : JNum → String
  | JNum.fin q =>
      let n : ℤ := round (q * 100)
      let m : ℕ := n.natAbs
      (if n < 0 then "-" else "") ++ toString (m / 100) ++ "." ++
        (if m % 100 < 10 then "0" else "") ++ toString (m % 100)
  | JNum.posInf => "Infinity"
  | JNum.negInf => "-Infinity"
  | JNum.nan => "NaN"

/-! ## Update handler pipeline (`webhooks.products.update.jsx`) -/

/-- `metafields.find(edge => edge.node.key === k)`. -/
def findKey (metafields : List MetafieldEdge) (k : String) : Option MetafieldEdge :=
  metafields.find? (fun e => e.key == k)

/-- Lines 131–160: the four derived metafields sent to `metafieldsSet`. -/
def metafieldsToSet (gid : String) (d : Derived) : List MetafieldWrite :=
  [⟨gid, "custom", "total_cost", toFixed2 d.totalCost, "number_decimal"⟩,
   ⟨gid, "custom", "etsy_price", toFixed2 d.finalEtsyPrice, "number_decimal"⟩,
   ⟨gid, "custom", "etsy_fees", toFixed2 d.etsyFees, "number_decimal"⟩,
   ⟨gid, "custom", "market_price", toFixed2 d.marketPrice, "number_decimal"⟩]

/-- The environment an update-notification run observes: the webhook payload,
whether an offline session exists, the product's current `custom`
metafields, the stored defaults record (if any), and whether either remote
call throws a transport fault; `userErrors` are the remote-side rejections
returned by `metafieldsSet`. -/
structure UpdateEnv where
  productId : ℕ
  session : Bool
  fetchFault : Bool
  metafields : List MetafieldEdge
  defaults : Option MetafieldDefaults
  writeFault : Bool
  userErrors : List (String × String)

/-- What a handler run did: the HTTP status returned to Shopify, and the
`metafieldsSet` payload if such a call was issued (`none` = no write call). -/
structure ActionResult where
  status : ℕ
  write : Option (List MetafieldWrite)
deriving DecidableEq, Repr

/-- The `products/update` webhook handler (`action`), with `parseFloat`
abstracted as `pf`.  Faults thrown inside the `try` block are caught and the
handler still returns the 200 response built after the catch. -/
def updateAction (pf : String → JNum) (env : UpdateEnv) : ActionResult :=
  if env.session = false then ⟨200, none⟩
  else if env.fetchFault then ⟨200, none⟩
  else
    let materialCostsField := findKey env.metafields "material_costs"
    let hoursWorkedField := findKey env.metafields "hours_worked"
    let rarityField := findKey env.metafields "rarity"
    let materialCosts : Option JNum := materialCostsField.map (fun e => pf e.value)
    let hoursWorked : Option JNum := hoursWorkedField.map (fun e => pf e.value)
    let productRarity : String := jsStringOr (rarityField.map (fun e => e.value)) "NORMAL"
    match materialCosts, hoursWorked with
    | some mc, some hw =>
        (match env.defaults with
        | none => ⟨200, none⟩
        | some defaults =>
            let c := resolveDefaults pf defaults
            let d := computePricing mc hw productRarity c
            ⟨200, some (metafieldsToSet (productGid env.productId) d)⟩)
    | _, _ => ⟨200, none⟩

/-! ## Create handler pipeline (`src/unnamed/part_000`, products/create) -/

/-- One entry of the `metafields` array the create handler builds before
attaching `ownerId`. -/
structure CreateMetafield where
  ns : String
  key : String
  value : String
  type : String
deriving DecidableEq, Repr

/-- Lines 250–322 of the create handler: push one metafield per truthy
stored default, with the stored string verbatim as the value. -/
def buildCreateMetafields (defaults : MetafieldDefaults) : List CreateMetafield :=
  (if truthy defaults.etsyDiscount then
    [⟨"custom", "etsy_discount", defaults.etsyDiscount.getD "", "number_decimal"⟩] else []) ++
  (if truthy defaults.shipping then
    [⟨"custom", "shipping", defaults.shipping.getD "", "number_decimal"⟩] else []) ++
  (if truthy defaults.vat then
    [⟨"custom", "vat", defaults.vat.getD "", "number_decimal"⟩] else []) ++
  (if truthy defaults.normalMultiplier then
    [⟨"custom", "normal_multiplier", defaults.normalMultiplier.getD "", "number_decimal"⟩] else []) ++
  (if truthy defaults.ooakMultiplier then
    [⟨"custom", "ooak_multiplier", defaults.ooakMultiplier.getD "", "number_decimal"⟩] else []) ++
  (if truthy defaults.rarity then
    [⟨"custom", "rarity", defaults.rarity.getD "", "single_line_text_field"⟩] else []) ++
  (if truthy defaults.etsyMarkupProfit then
    [⟨"custom", "etsy_markup_profit", defaults.etsyMarkupProfit.getD "", "number_decimal"⟩] else []) ++
  (if truthy defaults.hourlyRate then
    [⟨"custom", "hourly_rate", defaults.hourlyRate.getD "", "number_decimal"⟩] else [])

/-- The environment a create-notification run observes. -/
structure CreateEnv where
  productId : ℕ
  session : Bool
  defaults : Option MetafieldDefaults
  writeFault : Bool
  userErrors : List (String × String)

/-- The `products/create` webhook handler (`action`).  It never reads the
product's own metafields and runs no pricing calculation; it writes each
truthy stored default verbatim. -/
def createAction (env : CreateEnv) : ActionResult :=
  if env.session = false then ⟨200, none⟩
  else
    match env.defaults with
    | none => ⟨200, none⟩
    | some defaults =>
        let metafields := buildCreateMetafields defaults
        if metafields.length = 0 then ⟨200, none⟩
        else
          ⟨200, some (metafields.map (fun mf =>
            ⟨productGid env.productId, mf.ns, mf.key, mf.value, mf.type⟩))⟩


/-! ## Remote metafield store (the upsert behaviour of `metafieldsSet`) -/

/-- Effect of one `metafieldsSet` entry on the product's metafield list: the
value is replaced when a metafield with the same namespace and key exists,
otherwise a new metafield is appended. -/
def applyWrite (l : List MetafieldEdge) (w : MetafieldWrite) : List MetafieldEdge :=
  if l.any (fun e => e.ns == w.ns && e.key == w.key) then
    l.map (fun e => if e.ns == w.ns && e.key == w.key then ⟨e.ns, e.key, w.value⟩ else e)
  else l ++ [⟨w.ns, w.key, w.value⟩]

/-- Effect of a whole `metafieldsSet` payload on the product's metafields. -/
def applyWrites (l : List MetafieldEdge) (ws : List MetafieldWrite) : List MetafieldEdge :=
  ws.foldl applyWrite l

/-- Test fixture standing in for `parseFloat` on the concrete decimal strings
used by the examples; any other string parses to `NaN`. -/
def fixtureParse : String → JNum
  | "10" => JNum.fin 10
  | "2" => JNum.fin 2
  | "15" => JNum.fin 15
  | "20" => JNum.fin 20
  | "21" => JNum.fin 21
  | "5" => JNum.fin 5
  | "1.2" => JNum.fin (6 / 5)
  | "100" => JNum.fin 100
  | "150" => JNum.fin 150
  | _ => JNum.nan

/-! ## Lemmas about JavaScript numbers -/

@[simp] theorem JNum.fin_add (a b : ℚ) :
    JNum.fin a + JNum.fin b = JNum.fin (a + b) := rfl

@[simp] theorem JNum.fin_sub (a b : ℚ) :
    JNum.fin a - JNum.fin b = JNum.fin (a - b) := rfl

@[simp] theorem JNum.fin_mul (a b : ℚ) :
    JNum.fin a * JNum.fin b = JNum.fin (a * b) := rfl

@[simp] theorem JNum.fin_ltB (a b : ℚ) :
    JNum.ltB (JNum.fin a) (JNum.fin b) = decide (a < b) := rfl

@[simp] theorem JNum.nan_add (x : JNum) : JNum.nan + x = JNum.nan := by
  cases x <;> rfl

@[simp] theorem JNum.add_nan (x : JNum) : x + JNum.nan = JNum.nan := by
  cases x <;> rfl

@[simp] theorem JNum.nan_mul (x : JNum) : JNum.nan * x = JNum.nan := by
  cases x <;> rfl

@[simp] theorem JNum.mul_nan (x : JNum) : x * JNum.nan = JNum.nan := by
  cases x <;> rfl

@[simp] theorem JNum.nan_div (x : JNum) : JNum.div JNum.nan x = JNum.nan := by
  cases x <;> rfl

@[simp] theorem JNum.div_nan (x : JNum) : JNum.div x JNum.nan = JNum.nan := by
  cases x <;> rfl

theorem JNum.fin_div_of_ne (a b : ℚ) (hb : b ≠ 0) :
    JNum.div (JNum.fin a) (JNum.fin b) = JNum.fin (a / b) := by
  simp [JNum.div, hb]

theorem JNum.fin_div_pos_zero (a : ℚ) (ha : 0 < a) :
    JNum.div (JNum.fin a) (JNum.fin 0) = JNum.posInf := by
  simp [JNum.div, ha]
/-! ## Helper lemmas on the calculation -/

/-- Reduction of the pricing calculation on finite inputs: every step is
exact rational arithmetic; only the discount division is left symbolic. -/
theorem computePricing_fin (m h hr mk vt sh di nm om : ℚ) (r : String) :
    computePricing (JNum.fin m) (JNum.fin h) r
      ⟨JNum.fin hr, JNum.fin mk, JNum.fin vt, JNum.fin sh, JNum.fin di,
       JNum.fin nm, JNum.fin om⟩ =
    (let mult : ℚ := if jsToUpper r = "OOAK" then om else nm
     let totalCost : ℚ := m + h * hr
     let priceWithVat : ℚ := (totalCost * (1 + mk / 100) * mult + sh) * (1 + vt / 100)
     let fee : ℚ := priceWithVat * (19 / 200) + 1 / 5
     let pre : ℚ := priceWithVat + fee
     ⟨JNum.fin totalCost,
      if 0 < di then JNum.div (JNum.fin pre) (JNum.fin (1 - di / 100))
      else JNum.fin pre,
      JNum.fin fee,
      JNum.fin (totalCost * (21 / 20) * mult)⟩) := by
  have h100 : (100 : ℚ) ≠ 0 := by norm_num
  by_cases hr' : jsToUpper r = "OOAK" <;>
    simp [computePricing, rarityMultiplierOf, hr', JNum.fin_div_of_ne _ _ h100,
      JNum.fin_ltB, decide_eq_true_eq]

/-- A `NaN` cost input contaminates every derived value. -/
theorem computePricing_nan (m h : JNum) (r : String) (c : ResolvedDefaults)
    (hmh : m = JNum.nan ∨ h = JNum.nan) :
    computePricing m h r c =
      ⟨JNum.nan, JNum.nan, JNum.nan, JNum.nan⟩ := by
  rcases hmh with hm | hh
  · subst hm
    simp only [computePricing]
    split <;> simp
  · subst hh
    simp only [computePricing]
    split <;> simp


/-! ## Helper lemmas on the pipelines -/

theorem mem_ite_singleton {α : Type} (w a : α) (c : Prop) [Decidable c] :
    (w ∈ if c then [a] else ([] : List α)) ↔ c ∧ w = a := by
  split <;> simp_all

theorem truthy_iff (o : Option String) :
    truthy o = true ↔ ∃ s, o = some s ∧ s ≠ "" := by
  cases o <;> simp [truthy]

/-- Replacing the values stored under a different key leaves `findKey` for
`k` unchanged (value-replacement branch of `applyWrite`). -/
theorem findKey_map_other (w : MetafieldWrite) (k : String) (hk : w.key ≠ k)
    (l : List MetafieldEdge) :
    findKey (l.map (fun e => if e.ns == w.ns && e.key == w.key then
      (⟨e.ns, e.key, w.value⟩ : MetafieldEdge) else e)) k = findKey l k := by
  induction l with
  | nil => rfl
  | cons e t ih =>
      rw [List.map_cons]
      by_cases hp : (e.key == k) = true
      · have h1 : (e.ns == w.ns && e.key == w.key) = false := by
          have h2 : (e.key == w.key) = false := by
            have hek : e.key = k := by simpa using hp
            simp only [hek, beq_eq_false_iff_ne, ne_eq]
            exact fun hc => hk hc.symm
          simp [h2]
        rw [if_neg (by simp [h1])]
        unfold findKey
        rw [@List.find?_cons_of_pos MetafieldEdge (fun e => e.key == k) e _ hp,
          @List.find?_cons_of_pos MetafieldEdge (fun e => e.key == k) e t hp]
      · by_cases hc : (e.ns == w.ns && e.key == w.key) = true
        · rw [if_pos hc]
          unfold findKey
          rw [@List.find?_cons_of_neg MetafieldEdge (fun e => e.key == k)
              (⟨e.ns, e.key, w.value⟩ : MetafieldEdge) _ hp,
            @List.find?_cons_of_neg MetafieldEdge (fun e => e.key == k) e t hp]
          exact ih
        · rw [if_neg hc]
          unfold findKey
          rw [@List.find?_cons_of_neg MetafieldEdge (fun e => e.key == k) e _ hp,
            @List.find?_cons_of_neg MetafieldEdge (fun e => e.key == k) e t hp]
          exact ih

/-- Appending a metafield under a different key leaves `findKey` for `k`
unchanged (insert branch of `applyWrite`). -/
theorem findKey_append_other (w : MetafieldWrite) (k : String) (hk : w.key ≠ k)
    (l : List MetafieldEdge) :
    findKey (l ++ [⟨w.ns, w.key, w.value⟩]) k = findKey l k := by
  unfold findKey
  rw [List.find?_append]
  have h2 : List.find? (fun e => e.key == k)
      [(⟨w.ns, w.key, w.value⟩ : MetafieldEdge)] = none := by
    rw [@List.find?_cons_of_neg MetafieldEdge (fun e => e.key == k) _ []
      (by simpa using hk)]
    rfl
  rw [h2]
  cases List.find? (fun e => e.key == k) l <;> rfl

/-- One write under another key does not change what `findKey` returns. -/
theorem findKey_applyWrite (l : List MetafieldEdge) (w : MetafieldWrite) (k : String)
    (hk : w.key ≠ k) : findKey (applyWrite l w) k = findKey l k := by
  unfold applyWrite
  split
  · exact findKey_map_other w k hk l
  · exact findKey_append_other w k hk l

/-- A whole payload of writes under other keys does not change what
`findKey` returns. -/
theorem findKey_applyWrites (l : List MetafieldEdge) (ws : List MetafieldWrite) (k : String)
    (hk : ∀ w ∈ ws, w.key ≠ k) : findKey (applyWrites l ws) k = findKey l k := by
  induction ws generalizing l with
  | nil => rfl
  | cons w t ih =>
      have h1 : applyWrites l (w :: t) = applyWrites (applyWrite l w) t := rfl
      rw [h1, ih (applyWrite l w) (fun v hv => hk v (List.mem_cons_of_mem _ hv)),
        findKey_applyWrite l w k (hk w (List.mem_cons_self _ _))]

/-- The four keys the update handler writes. -/
theorem metafieldsToSet_keyList (g : String) (d : Derived) :
    (metafieldsToSet g d).map (fun w => w.key) =
      ["total_cost", "etsy_price", "etsy_fees", "market_price"] := rfl

/-- No key the update handler writes is one of the three input keys. -/
theorem metafieldsToSet_key_ne (g : String) (d : Derived) (k : String)
    (hk : k = "material_costs" ∨ k = "hours_worked" ∨ k = "rarity") :
    ∀ w ∈ metafieldsToSet g d, w.key ≠ k := by
  intro w hw
  have hmem : w.key ∈ ["total_cost", "etsy_price", "etsy_fees", "market_price"] := by
    rw [← metafieldsToSet_keyList g d]
    exact List.mem_map_of_mem _ hw
  simp only [List.mem_cons, List.not_mem_nil, or_false] at hmem
  rcases hmem with h | h | h | h <;> rcases hk with rfl | rfl | rfl <;>
    (rw [h]; decide)

/-- Whatever the update handler writes is a `metafieldsSet` payload of the
four derived values of this product. -/
theorem updateAction_write_shape (pf : String → JNum) (env : UpdateEnv) :
    (updateAction pf env).write = none ∨
    ∃ d, (updateAction pf env).write =
      some (metafieldsToSet (productGid env.productId) d) := by
  simp only [updateAction]
  repeat' split
  all_goals first
    | exact Or.inl rfl
    | exact Or.inr ⟨_, rfl⟩

/-- The pre-discount sale price is strictly positive for non-negative
inputs: it is at least the flat 0.20 part of the platform fee. -/
theorem presale_pos (tc mu mk vt sh : ℚ) (htc : 0 ≤ tc) (hmu : 0 ≤ mu)
    (hmk : 0 ≤ mk) (hvt : 0 ≤ vt) (hsh : 0 ≤ sh) :
    0 < (tc * (1 + mk / 100) * mu + sh) * (1 + vt / 100) +
      ((tc * (1 + mk / 100) * mu + sh) * (1 + vt / 100) * (19 / 200) + 1 / 5) := by
  have hmk2 : (0:ℚ) ≤ mk / 100 := div_nonneg hmk (by norm_num)
  have hvt2 : (0:ℚ) ≤ vt / 100 := div_nonneg hvt (by norm_num)
  have hx : (0:ℚ) ≤ tc * (1 + mk / 100) * mu :=
    mul_nonneg (mul_nonneg htc (by linarith)) hmu
  have hpwt : (0:ℚ) ≤ (tc * (1 + mk / 100) * mu + sh) * (1 + vt / 100) :=
    mul_nonneg (by linarith) (by linarith)
  linarith

/-! ## Claims -/

/-- C1: every notification run that completes without an unhandled fault
returns the fixed success acknowledgement (HTTP 200) to the dispatcher: on
the normal completion path, on every short-circuit branch (no session
credential, no defaults record, missing required inputs, nothing to write),
on the remote-rejection branch (`userErrors` are only logged) and when a
transport fault is thrown inside the guarded `try` region (`fetchFault`,
`writeFault`). -/
theorem claim_C1_always_acknowledges (pf : String → JNum)
    (envU : UpdateEnv) (envC : CreateEnv) :
    (updateAction pf envU).status = 200 ∧ (createAction envC).status = 200 := by
  constructor
  · simp only [updateAction]
    repeat' split
    all_goals rfl
  · simp only [createAction]
    repeat' split
    all_goals rfl

/-- C2: with both required inputs present, the derived pricing values follow
the exact chain labor = hoursWorked·hourlyRate, totalCost = materialCost +
labor, markedUp = totalCost·(1 + markup/100), rarityAdjusted =
markedUp·multiplier, subtotal = rarityAdjusted + shipping, priceWithTax =
subtotal·(1 + tax/100), platformFee = priceWithTax·0.095 + 0.20, salePrice =
priceWithTax + platformFee divided by (1 − discount/100) exactly when
discount > 0, marketPrice = totalCost·1.05·multiplier, and the reported
platformFee is the pre-discount fee; Vector A yields totalCost = 40,
platformFee = 7.39587, salePrice = 8314187/90000 ≈ 92.3798 and marketPrice =
50.40. -/
theorem claim_C2_pricing_chain (m h hr mk vt sh di nm om : ℚ) (r : String)
    (hdi : di ≠ 100) :
    (let mult : ℚ := if jsToUpper r = "OOAK" then om else nm
     let labor : ℚ := h * hr
     let totalCost : ℚ := m + labor
     let markedUp : ℚ := totalCost * (1 + mk / 100)
     let rarityAdjusted : ℚ := markedUp * mult
     let subtotal : ℚ := rarityAdjusted + sh
     let priceWithTax : ℚ := subtotal * (1 + vt / 100)
     let platformFee : ℚ := priceWithTax * (19 / 200) + 1 / 5
     let salePrice : ℚ :=
       if 0 < di then (priceWithTax + platformFee) / (1 - di / 100)
       else priceWithTax + platformFee
     let marketPrice : ℚ := totalCost * (21 / 20) * mult
     computePricing (JNum.fin m) (JNum.fin h) r
       ⟨JNum.fin hr, JNum.fin mk, JNum.fin vt, JNum.fin sh, JNum.fin di,
        JNum.fin nm, JNum.fin om⟩ =
       ⟨JNum.fin totalCost, JNum.fin salePrice, JNum.fin platformFee,
        JNum.fin marketPrice⟩) ∧
    computePricing (JNum.fin 10) (JNum.fin 2) "NORMAL"
      ⟨JNum.fin 15, JNum.fin 20, JNum.fin 21, JNum.fin 5, JNum.fin 10,
       JNum.fin (6 / 5), JNum.fin 2⟩ =
      ⟨JNum.fin 40, JNum.fin (8314187 / 90000), JNum.fin (739587 / 100000),
       JNum.fin (252 / 5)⟩ := by
  have hne : (1 : ℚ) - di / 100 ≠ 0 := by
    intro hc
    apply hdi
    field_simp at hc
    linarith
  constructor
  · rw [computePricing_fin]
    by_cases hlt : 0 < di
    · simp [hlt, JNum.fin_div_of_ne _ _ hne]
    · simp [hlt]
  · rw [computePricing_fin]
    norm_num [show jsToUpper "NORMAL" ≠ "OOAK" from by decide, JNum.fin_div_of_ne]

/-- Witness for C2 at Vector A. -/
theorem claim_C2_pricing_chain_witness :
    computePricing (JNum.fin 10) (JNum.fin 2) "NORMAL"
      ⟨JNum.fin 15, JNum.fin 20, JNum.fin 21, JNum.fin 5, JNum.fin 10,
       JNum.fin (6 / 5), JNum.fin 2⟩ =
      ⟨JNum.fin 40, JNum.fin (8314187 / 90000), JNum.fin (739587 / 100000),
       JNum.fin (252 / 5)⟩ :=
  (claim_C2_pricing_chain 10 2 15 20 21 5 10 (6 / 5) 2 "NORMAL" (by norm_num)).2

/-- C3 counterexample: with valid `material_costs` and `hours_worked` on the
product but no stored defaults record, the update handler makes no write
call at all — contrary to the claim, it does not proceed to compute and
write the four derived attributes with all-fallback configuration. -/
theorem claim_C3_counterexample :
    (updateAction fixtureParse
      ⟨1, true, false,
       [⟨"custom", "material_costs", "10"⟩, ⟨"custom", "hours_worked", "2"⟩],
       none, false, []⟩).write = none := by
  rfl

/-- C3 (amended): on an update notification with no tenant-configuration
record, the handler short-circuits exactly like the created path — no
attribute write call occurs and the run still acknowledges with 200; the
per-field fallback values of C6 apply only when a defaults record exists
but individual fields are absent. -/
theorem claim_C3_absent_config_short_circuits (pf : String → JNum)
    (envU : UpdateEnv) (envC : CreateEnv)
    (hU : envU.defaults = none) (hC : envC.defaults = none) :
    (updateAction pf envU).write = none ∧ (updateAction pf envU).status = 200 ∧
    (createAction envC).write = none ∧ (createAction envC).status = 200 := by
  have h1 : updateAction pf envU = ⟨200, none⟩ := by
    simp only [updateAction, hU]
    repeat' split
    all_goals rfl
  have h2 : createAction envC = ⟨200, none⟩ := by
    simp only [createAction, hC]
    repeat' split
    all_goals rfl
  rw [h1, h2]
  exact ⟨rfl, rfl, rfl, rfl⟩

/-- Witness for the amended C3. -/
theorem claim_C3_absent_config_short_circuits_witness :
    (updateAction fixtureParse
      ⟨2, true, false,
       [⟨"custom", "material_costs", "10"⟩, ⟨"custom", "hours_worked", "2"⟩],
       none, false, []⟩).write = none ∧
    (updateAction fixtureParse
      ⟨2, true, false,
       [⟨"custom", "material_costs", "10"⟩, ⟨"custom", "hours_worked", "2"⟩],
       none, false, []⟩).status = 200 ∧
    (createAction ⟨2, true, none, false, []⟩).write = none ∧
    (createAction ⟨2, true, none, false, []⟩).status = 200 :=
  claim_C3_absent_config_short_circuits fixtureParse
    ⟨2, true, false,
     [⟨"custom", "material_costs", "10"⟩, ⟨"custom", "hours_worked", "2"⟩],
     none, false, []⟩
    ⟨2, true, none, false, []⟩ rfl rfl

/-- C4: the pricing computation fails exactly on malformed numeric input —
a `NaN` cost input (the result of `parseFloat` on a malformed string, which
the `null`-check does not catch) contaminates all four derived values, while
for well-formed finite inputs every branch is total and produces four finite
derived values (away from the `discount = 100` singularity, which is the
subject of C10 and still produces a value, namely `Infinity`). -/
theorem claim_C4_fails_iff_malformed :
    (∀ (m h : JNum) (r : String) (c : ResolvedDefaults),
      m = JNum.nan ∨ h = JNum.nan →
      computePricing m h r c = ⟨JNum.nan, JNum.nan, JNum.nan, JNum.nan⟩) ∧
    (∀ (m h hr mk vt sh di nm om : ℚ) (r : String), di ≠ 100 →
      ∃ a b c d : ℚ,
        computePricing (JNum.fin m) (JNum.fin h) r
          ⟨JNum.fin hr, JNum.fin mk, JNum.fin vt, JNum.fin sh, JNum.fin di,
           JNum.fin nm, JNum.fin om⟩ =
          ⟨JNum.fin a, JNum.fin b, JNum.fin c, JNum.fin d⟩) := by
  constructor
  · exact fun m h r c hmh => computePricing_nan m h r c hmh
  · intro m h hr mk vt sh di nm om r hdi
    have hne : (1 : ℚ) - di / 100 ≠ 0 := by
      intro hc
      apply hdi
      field_simp at hc
      linarith
    rw [computePricing_fin]
    by_cases hlt : 0 < di
    · simp only [if_pos hlt, JNum.fin_div_of_ne _ _ hne]
      exact ⟨_, _, _, _, rfl⟩
    · simp only [if_neg hlt]
      exact ⟨_, _, _, _, rfl⟩

/-- Witness for C4: a `NaN` material cost poisons all outputs; Vector A
inputs give four finite outputs. -/
theorem claim_C4_fails_iff_malformed_witness :
    computePricing JNum.nan (JNum.fin 2) "NORMAL"
      ⟨JNum.fin 15, JNum.fin 20, JNum.fin 21, JNum.fin 5, JNum.fin 10,
       JNum.fin (6 / 5), JNum.fin 2⟩ =
      ⟨JNum.nan, JNum.nan, JNum.nan, JNum.nan⟩ ∧
    ∃ a b c d : ℚ,
      computePricing (JNum.fin 10) (JNum.fin 2) "NORMAL"
        ⟨JNum.fin 15, JNum.fin 20, JNum.fin 21, JNum.fin 5, JNum.fin 10,
         JNum.fin (6 / 5), JNum.fin 2⟩ =
        ⟨JNum.fin a, JNum.fin b, JNum.fin c, JNum.fin d⟩ :=
  ⟨claim_C4_fails_iff_malformed.1 JNum.nan (JNum.fin 2) "NORMAL"
    ⟨JNum.fin 15, JNum.fin 20, JNum.fin 21, JNum.fin 5, JNum.fin 10,
     JNum.fin (6 / 5), JNum.fin 2⟩ (Or.inl rfl),
   claim_C4_fails_iff_malformed.2 10 2 15 20 21 5 10 (6 / 5) 2 "NORMAL"
     (by norm_num)⟩

/-- C5: on an update notification where the product lacks the
`material_costs` metafield or lacks the `hours_worked` metafield, no
`metafieldsSet` call is made and the handler still acknowledges with 200. -/
theorem claim_C5_missing_inputs_no_write (pf : String → JNum) (env : UpdateEnv)
    (h : findKey env.metafields "material_costs" = none ∨
         findKey env.metafields "hours_worked" = none) :
    (updateAction pf env).write = none ∧ (updateAction pf env).status = 200 := by
  have hres : updateAction pf env = ⟨200, none⟩ := by
    simp only [updateAction]
    rcases h with h | h
    · rw [h]
      repeat' split
      all_goals simp_all
    · rw [h]
      repeat' split
      all_goals simp_all
  rw [hres]
  exact ⟨rfl, rfl⟩

/-- Witness for C5 on a product with no metafields at all. -/
theorem claim_C5_missing_inputs_no_write_witness :
    (updateAction fixtureParse ⟨3, true, false, [],
      some ⟨none, none, none, none, none, none, none, none⟩, false, []⟩).write = none ∧
    (updateAction fixtureParse ⟨3, true, false, [],
      some ⟨none, none, none, none, none, none, none, none⟩, false, []⟩).status = 200 :=
  claim_C5_missing_inputs_no_write fixtureParse
    ⟨3, true, false, [], some ⟨none, none, none, none, none, none, none, none⟩,
     false, []⟩ (Or.inl rfl)

/-- C6: for each configuration field absent at the point of use in the
update-path computation, the applied fallback is exactly discount = 0,
shipping = 0, tax = 0, markup = 0, hourlyRate = 0, normalMultiplier = 1.2,
ooakMultiplier = 2.0. -/
theorem claim_C6_fallback_values (pf : String → JNum) (d : MetafieldDefaults) :
    (d.etsyDiscount = none → (resolveDefaults pf d).discount = JNum.fin 0) ∧
    (d.shipping = none → (resolveDefaults pf d).shipping = JNum.fin 0) ∧
    (d.vat = none → (resolveDefaults pf d).vat = JNum.fin 0) ∧
    (d.etsyMarkupProfit = none → (resolveDefaults pf d).markup = JNum.fin 0) ∧
    (d.hourlyRate = none → (resolveDefaults pf d).hourlyRate = JNum.fin 0) ∧
    (d.normalMultiplier = none →
      (resolveDefaults pf d).normalMultiplier = JNum.fin (6 / 5)) ∧
    (d.ooakMultiplier = none → (resolveDefaults pf d).ooakMultiplier = JNum.fin 2) := by
  refine ⟨?_, ?_, ?_, ?_, ?_, ?_, ?_⟩ <;> intro h <;>
    simp [resolveDefaults, resolveField, h]

/-- Witness for C6 at the all-absent record. -/
theorem claim_C6_fallback_values_witness :
    (resolveDefaults fixtureParse
      ⟨none, none, none, none, none, none, none, none⟩).discount = JNum.fin 0 ∧
    (resolveDefaults fixtureParse
      ⟨none, none, none, none, none, none, none, none⟩).shipping = JNum.fin 0 ∧
    (resolveDefaults fixtureParse
      ⟨none, none, none, none, none, none, none, none⟩).vat = JNum.fin 0 ∧
    (resolveDefaults fixtureParse
      ⟨none, none, none, none, none, none, none, none⟩).markup = JNum.fin 0 ∧
    (resolveDefaults fixtureParse
      ⟨none, none, none, none, none, none, none, none⟩).hourlyRate = JNum.fin 0 ∧
    (resolveDefaults fixtureParse
      ⟨none, none, none, none, none, none, none, none⟩).normalMultiplier =
      JNum.fin (6 / 5) ∧
    (resolveDefaults fixtureParse
      ⟨none, none, none, none, none, none, none, none⟩).ooakMultiplier = JNum.fin 2 :=
  ⟨(claim_C6_fallback_values fixtureParse _).1 rfl,
   (claim_C6_fallback_values fixtureParse _).2.1 rfl,
   (claim_C6_fallback_values fixtureParse _).2.2.1 rfl,
   (claim_C6_fallback_values fixtureParse _).2.2.2.1 rfl,
   (claim_C6_fallback_values fixtureParse _).2.2.2.2.1 rfl,
   (claim_C6_fallback_values fixtureParse _).2.2.2.2.2.1 rfl,
   (claim_C6_fallback_values fixtureParse _).2.2.2.2.2.2 rfl⟩

/-- C7: multiplier selection is case-insensitive on the product's rarity
label: every string uppercasing to `OOAK` selects the one-of-a-kind
multiplier; every other string — including the empty string and an absent
rarity metafield, both of which default to `NORMAL` — selects the normal
multiplier. -/
theorem claim_C7_rarity_case_insensitive (c : ResolvedDefaults) :
    (∀ s : String, jsToUpper s = "OOAK" →
      rarityMultiplierOf s c = c.ooakMultiplier) ∧
    (∀ s : String, jsToUpper s ≠ "OOAK" →
      rarityMultiplierOf s c = c.normalMultiplier) ∧
    rarityMultiplierOf "ooak" c = c.ooakMultiplier ∧
    rarityMultiplierOf "OOAK" c = c.ooakMultiplier ∧
    rarityMultiplierOf "Ooak" c = c.ooakMultiplier ∧
    rarityMultiplierOf
      (jsStringOr ((none : Option MetafieldEdge).map (fun e => e.value)) "NORMAL") c =
      c.normalMultiplier ∧
    (∀ e : MetafieldEdge, e.value = "" →
      rarityMultiplierOf (jsStringOr ((some e).map (fun e => e.value)) "NORMAL") c =
        c.normalMultiplier) := by
  refine ⟨?_, ?_, ?_, ?_, ?_, ?_, ?_⟩
  · intro s hs
    simp [rarityMultiplierOf, hs]
  · intro s hs
    simp [rarityMultiplierOf, hs]
  · simp [rarityMultiplierOf, show jsToUpper "ooak" = "OOAK" from by decide]
  · simp [rarityMultiplierOf, show jsToUpper "OOAK" = "OOAK" from by decide]
  · simp [rarityMultiplierOf, show jsToUpper "Ooak" = "OOAK" from by decide]
  · simp [rarityMultiplierOf, jsStringOr,
      show jsToUpper "NORMAL" ≠ "OOAK" from by decide]
  · intro e he
    simp [rarityMultiplierOf, jsStringOr, he,
      show jsToUpper "NORMAL" ≠ "OOAK" from by decide]

/-- Witness for C7 at a concrete configuration and concrete labels. -/
theorem claim_C7_rarity_case_insensitive_witness :
    rarityMultiplierOf "oOaK"
      ⟨JNum.fin 0, JNum.fin 0, JNum.fin 0, JNum.fin 0, JNum.fin 0,
       JNum.fin (6 / 5), JNum.fin 2⟩ = JNum.fin 2 ∧
    rarityMultiplierOf "rare"
      ⟨JNum.fin 0, JNum.fin 0, JNum.fin 0, JNum.fin 0, JNum.fin 0,
       JNum.fin (6 / 5), JNum.fin 2⟩ = JNum.fin (6 / 5) :=
  ⟨(claim_C7_rarity_case_insensitive _).1 "oOaK" (by decide),
   (claim_C7_rarity_case_insensitive _).2.1 "rare" (by decide)⟩

/-- C8: on a created-item notification, absent tenant configuration
short-circuits with no attribute write; otherwise the handler writes, for
every truthy stored configuration field and only those, the corresponding
item attribute with the stored string verbatim, and the written payload is
exactly this seeded list — the pricing calculation plays no part in it
(every written value is a stored string, untouched). -/
theorem claim_C8_create_path (env : CreateEnv) (d : MetafieldDefaults) :
    (env.defaults = none → createAction env = ⟨200, none⟩) ∧
    (∀ w ∈ buildCreateMetafields d,
      w.ns = "custom" ∧
      ((w.key = "etsy_discount" ∧ d.etsyDiscount = some w.value) ∨
       (w.key = "shipping" ∧ d.shipping = some w.value) ∨
       (w.key = "vat" ∧ d.vat = some w.value) ∨
       (w.key = "normal_multiplier" ∧ d.normalMultiplier = some w.value) ∨
       (w.key = "ooak_multiplier" ∧ d.ooakMultiplier = some w.value) ∨
       (w.key = "rarity" ∧ d.rarity = some w.value) ∨
       (w.key = "etsy_markup_profit" ∧ d.etsyMarkupProfit = some w.value) ∨
       (w.key = "hourly_rate" ∧ d.hourlyRate = some w.value))) ∧
    (truthy d.etsyDiscount = true →
      (⟨"custom", "etsy_discount", d.etsyDiscount.getD "", "number_decimal"⟩ :
        CreateMetafield) ∈ buildCreateMetafields d) ∧
    (truthy d.shipping = true →
      (⟨"custom", "shipping", d.shipping.getD "", "number_decimal"⟩ :
        CreateMetafield) ∈ buildCreateMetafields d) ∧
    (truthy d.vat = true →
      (⟨"custom", "vat", d.vat.getD "", "number_decimal"⟩ :
        CreateMetafield) ∈ buildCreateMetafields d) ∧
    (truthy d.normalMultiplier = true →
      (⟨"custom", "normal_multiplier", d.normalMultiplier.getD "", "number_decimal"⟩ :
        CreateMetafield) ∈ buildCreateMetafields d) ∧
    (truthy d.ooakMultiplier = true →
      (⟨"custom", "ooak_multiplier", d.ooakMultiplier.getD "", "number_decimal"⟩ :
        CreateMetafield) ∈ buildCreateMetafields d) ∧
    (truthy d.rarity = true →
      (⟨"custom", "rarity", d.rarity.getD "", "single_line_text_field"⟩ :
        CreateMetafield) ∈ buildCreateMetafields d) ∧
    (truthy d.etsyMarkupProfit = true →
      (⟨"custom", "etsy_markup_profit", d.etsyMarkupProfit.getD "", "number_decimal"⟩ :
        CreateMetafield) ∈ buildCreateMetafields d) ∧
    (truthy d.hourlyRate = true →
      (⟨"custom", "hourly_rate", d.hourlyRate.getD "", "number_decimal"⟩ :
        CreateMetafield) ∈ buildCreateMetafields d) ∧
    (env.defaults = some d → env.session = true →
      (createAction env).write =
        if (buildCreateMetafields d).length = 0 then none
        else some ((buildCreateMetafields d).map (fun mf =>
          ⟨productGid env.productId, mf.ns, mf.key, mf.value, mf.type⟩))) := by
  refine ⟨?_, ?_, ?_, ?_, ?_, ?_, ?_, ?_, ?_, ?_, ?_⟩
  · intro hd
    simp only [createAction, hd]
    repeat' split
    all_goals rfl
  · intro w hw
    unfold buildCreateMetafields at hw
    simp only [List.mem_append] at hw
    rcases hw with ((((((h | h) | h) | h) | h) | h) | h) | h
    all_goals rw [mem_ite_singleton] at h
    all_goals obtain ⟨ht, rfl⟩ := h
    all_goals obtain ⟨s, hs, hne⟩ := (truthy_iff _).1 ht
    all_goals refine ⟨rfl, ?_⟩
    all_goals simp [hs]
  · intro ht
    simp [buildCreateMetafields, List.mem_append, mem_ite_singleton, ht]
  · intro ht
    simp [buildCreateMetafields, List.mem_append, mem_ite_singleton, ht]
  · intro ht
    simp [buildCreateMetafields, List.mem_append, mem_ite_singleton, ht]
  · intro ht
    simp [buildCreateMetafields, List.mem_append, mem_ite_singleton, ht]
  · intro ht
    simp [buildCreateMetafields, List.mem_append, mem_ite_singleton, ht]
  · intro ht
    simp [buildCreateMetafields, List.mem_append, mem_ite_singleton, ht]
  · intro ht
    simp [buildCreateMetafields, List.mem_append, mem_ite_singleton, ht]
  · intro ht
    simp [buildCreateMetafields, List.mem_append, mem_ite_singleton, ht]
  · intro hd hs
    simp only [createAction, hd, hs]
    rw [if_neg (by simp)]
    by_cases hl : (buildCreateMetafields d).length = 0
    · simp [hl]
    · simp [hl]

/-- Witness for C8: an absent record writes nothing; a record with discount
`"5"`, markup `"30"` and rarity `"OOAK"` seeds exactly those three
metafields verbatim. -/
theorem claim_C8_create_path_witness :
    createAction ⟨11, true, none, false, []⟩ = ⟨200, none⟩ ∧
    (⟨"custom", "etsy_discount", "5", "number_decimal"⟩ : CreateMetafield)
      ∈ buildCreateMetafields
        ⟨some "5", none, none, none, none, some "30", none, some "OOAK"⟩ ∧
    (createAction ⟨12, true,
      some ⟨some "5", none, none, none, none, some "30", none, some "OOAK"⟩,
      false, []⟩).write =
      some [⟨"gid://shopify/Product/12", "custom", "etsy_discount", "5",
              "number_decimal"⟩,
            ⟨"gid://shopify/Product/12", "custom", "rarity", "OOAK",
              "single_line_text_field"⟩,
            ⟨"gid://shopify/Product/12", "custom", "etsy_markup_profit", "30",
              "number_decimal"⟩] := by
  refine ⟨(claim_C8_create_path ⟨11, true, none, false, []⟩
      ⟨some "5", none, none, none, none, some "30", none, some "OOAK"⟩).1 rfl,
    ?_, ?_⟩
  · exact (claim_C8_create_path ⟨11, true, none, false, []⟩
      ⟨some "5", none, none, none, none, some "30", none, some "OOAK"⟩).2.2.1
      (by decide)
  · have h := (claim_C8_create_path ⟨12, true,
      some ⟨some "5", none, none, none, none, some "30", none, some "OOAK"⟩,
      false, []⟩
      ⟨some "5", none, none, none, none, some "30", none, some "OOAK"⟩
      ).2.2.2.2.2.2.2.2.2.2 rfl rfl
    rw [h]
    rfl

/-- C9: the update-path pipeline is deterministic in the three input
metafields and never reads its own prior output: any product state agreeing
on `material_costs`, `hours_worked` and `rarity` yields the identical run
(identical derived values and identical write payload), and in particular
replaying the handler on the state produced by its own previous write
yields the identical run again. -/
theorem claim_C9_idempotent_replay (pf : String → JNum) (env : UpdateEnv)
    (l₂ : List MetafieldEdge)
    (hmc : findKey l₂ "material_costs" = findKey env.metafields "material_costs")
    (hhw : findKey l₂ "hours_worked" = findKey env.metafields "hours_worked")
    (hra : findKey l₂ "rarity" = findKey env.metafields "rarity") :
    updateAction pf { env with metafields := l₂ } = updateAction pf env ∧
    (∀ ws, (updateAction pf env).write = some ws →
      updateAction pf { env with metafields := applyWrites env.metafields ws } =
        updateAction pf env) := by
  have hgen : ∀ l' : List MetafieldEdge,
      findKey l' "material_costs" = findKey env.metafields "material_costs" →
      findKey l' "hours_worked" = findKey env.metafields "hours_worked" →
      findKey l' "rarity" = findKey env.metafields "rarity" →
      updateAction pf { env with metafields := l' } = updateAction pf env := by
    intro l' h1 h2 h3
    simp only [updateAction]
    rw [h1, h2, h3]
  refine ⟨hgen l₂ hmc hhw hra, ?_⟩
  intro ws hws
  rcases updateAction_write_shape pf env with hn | ⟨d, hd⟩
  · rw [hn] at hws
    cases hws
  · rw [hd] at hws
    have hws' : ws = metafieldsToSet (productGid env.productId) d := by
      injection hws with h
      exact h.symm
    subst hws'
    exact hgen _
      (findKey_applyWrites _ _ _ (metafieldsToSet_key_ne _ _ _ (Or.inl rfl)))
      (findKey_applyWrites _ _ _ (metafieldsToSet_key_ne _ _ _ (Or.inr (Or.inl rfl))))
      (findKey_applyWrites _ _ _ (metafieldsToSet_key_ne _ _ _ (Or.inr (Or.inr rfl))))

/-- Witness for C9: adding a derived-output metafield (as the handler's own
write would) leaves the run identical. -/
theorem claim_C9_idempotent_replay_witness :
    updateAction fixtureParse
      ⟨4, true, false,
       [⟨"custom", "material_costs", "10"⟩, ⟨"custom", "hours_worked", "2"⟩,
        ⟨"custom", "total_cost", "40.00"⟩],
       some ⟨none, none, none, none, none, none, some "15", none⟩, false, []⟩ =
    updateAction fixtureParse
      ⟨4, true, false,
       [⟨"custom", "material_costs", "10"⟩, ⟨"custom", "hours_worked", "2"⟩],
       some ⟨none, none, none, none, none, none, some "15", none⟩, false, []⟩ :=
  (claim_C9_idempotent_replay fixtureParse
    ⟨4, true, false,
     [⟨"custom", "material_costs", "10"⟩, ⟨"custom", "hours_worked", "2"⟩],
     some ⟨none, none, none, none, none, none, some "15", none⟩, false, []⟩
    [⟨"custom", "material_costs", "10"⟩, ⟨"custom", "hours_worked", "2"⟩,
     ⟨"custom", "total_cost", "40.00"⟩] rfl rfl rfl).1

/-- C10: the discount division has no upper-bound guard — it applies to
every discount strictly greater than 0.  At discount = 100 the divisor
(1 − discount/100) is exactly zero, so for non-negative inputs the computed
sale price is `Infinity`, not a finite number; for every discount greater
than 100 the divisor is negative and the computed sale price is a negative
number. -/
theorem claim_C10_discount_unguarded (m h hr mk vt sh nm om di : ℚ) (r : String)
    (hm : 0 ≤ m) (hh : 0 ≤ h) (hhr : 0 ≤ hr) (hmk : 0 ≤ mk) (hvt : 0 ≤ vt)
    (hsh : 0 ≤ sh) (hnm : 0 ≤ nm) (hom : 0 ≤ om) :
    (computePricing (JNum.fin m) (JNum.fin h) r
      ⟨JNum.fin hr, JNum.fin mk, JNum.fin vt, JNum.fin sh, JNum.fin 100,
       JNum.fin nm, JNum.fin om⟩).finalEtsyPrice = JNum.posInf ∧
    (100 < di →
      ∃ q : ℚ, q < 0 ∧
        (computePricing (JNum.fin m) (JNum.fin h) r
          ⟨JNum.fin hr, JNum.fin mk, JNum.fin vt, JNum.fin sh, JNum.fin di,
           JNum.fin nm, JNum.fin om⟩).finalEtsyPrice = JNum.fin q) := by
  have hmu : 0 ≤ (if jsToUpper r = "OOAK" then om else nm) := by
    split
    · exact hom
    · exact hnm
  have htc : (0:ℚ) ≤ m + h * hr := add_nonneg hm (mul_nonneg hh hhr)
  have hpre := presale_pos (m + h * hr) (if jsToUpper r = "OOAK" then om else nm)
    mk vt sh htc hmu hmk hvt hsh
  constructor
  · simp only [computePricing_fin]
    rw [if_pos (by norm_num : (0:ℚ) < 100),
      show (1:ℚ) - 100 / 100 = 0 by norm_num]
    exact JNum.fin_div_pos_zero _ hpre
  · intro hdi
    have hlt0 : (0:ℚ) < di := by linarith
    have hden : (1:ℚ) - di / 100 < 0 := by
      have h1 : (1:ℚ) < di / 100 := by
        rw [lt_div_iff₀ (by norm_num : (0:ℚ) < 100)]
        linarith
      linarith
    refine ⟨(((m + h * hr) * (1 + mk / 100) *
        (if jsToUpper r = "OOAK" then om else nm) + sh) * (1 + vt / 100) +
        (((m + h * hr) * (1 + mk / 100) *
          (if jsToUpper r = "OOAK" then om else nm) + sh) * (1 + vt / 100) *
          (19 / 200) + 1 / 5)) / (1 - di / 100),
      div_neg_of_pos_of_neg hpre hden, ?_⟩
    simp only [computePricing_fin]
    rw [if_pos hlt0, JNum.fin_div_of_ne _ _ (ne_of_lt hden)]

/-- Witness for C10: Vector A inputs with discount 100 give an infinite sale
price; with discount 150 a negative one. -/
theorem claim_C10_discount_unguarded_witness :
    (computePricing (JNum.fin 10) (JNum.fin 2) "NORMAL"
      ⟨JNum.fin 15, JNum.fin 20, JNum.fin 21, JNum.fin 5, JNum.fin 100,
       JNum.fin (6 / 5), JNum.fin 2⟩).finalEtsyPrice = JNum.posInf ∧
    (∃ q : ℚ, q < 0 ∧
      (computePricing (JNum.fin 10) (JNum.fin 2) "NORMAL"
        ⟨JNum.fin 15, JNum.fin 20, JNum.fin 21, JNum.fin 5, JNum.fin 150,
         JNum.fin (6 / 5), JNum.fin 2⟩).finalEtsyPrice = JNum.fin q) := by
  have h := claim_C10_discount_unguarded 10 2 15 20 21 5 (6 / 5) 2 150 "NORMAL"
    (by norm_num) (by norm_num) (by norm_num) (by norm_num) (by norm_num)
    (by norm_num) (by norm_num) (by norm_num)
  exact ⟨h.1, h.2 (by norm_num)⟩
